import Mathlib

/-!
Verification development for the `aptos-bcs` primitive-wrapper slice
(`src/consts.ts` concatenated with `src/serializable/movePrimitives.ts`).

The repository ships the typed value wrappers (`Bool`, `U8` … `U256`) and the
numeric bound constants; the `Serializer`/`Deserializer` modules they import
(`ensureBoolean`, `validateNumberInRange`, the little-endian byte primitives
and the ULEB128 codec) are not part of the given sources, so those are
modelled from the specification and marked as such in their doc comments.

Bytes are modelled as natural numbers `< 256` inside `List Nat`; JavaScript
`number` and `bigint` are both modelled as `Int` (all values the wrappers
accept are mathematical integers); fallible operations return
`Except BcsError`.
-/

/-- Modelled from the spec (§7 ERROR HANDLING DESIGN): the error kinds raised
by construction-time validation and by the Deserializer. The concrete error
classes live in the serializer/deserializer modules, which are not among the
given sources. -/
inductive BcsError where
  | rangeError
  | typeError
  | truncatedInput
  | nonCanonicalEncoding
  | overflow
deriving DecidableEq, Repr

/-- Modelled from the spec (§4.1, §6): little-endian encoding of a value into
exactly `n` bytes, least significant byte first. This is the byte-cursor
write primitive behind `serializeU8` … `serializeU256`, which live in the
serializer module absent from the given sources. -/
def toLEBytes : Nat → Nat → List Nat
  | 0, _ => []
  | n + 1, v => v % 256 :: toLEBytes n (v / 256)

/-- Modelled from the spec (§4.1): little-endian reassembly of a byte list
into a natural number (each entry taken mod 256, bytes being 8-bit). -/
def fromLEBytes : List Nat → Nat
  | [] => 0
  | b :: bs => b % 256 + 256 * fromLEBytes bs

/-- Modelled from the spec (§4.4 `readBytes`): take exactly `n` bytes off the
front of the buffer, failing with a truncation error when fewer remain. -/
def readBytes (n : Nat) (bs : List Nat) : Except BcsError (List Nat × List Nat) :=
  if bs.length < n then .error .truncatedInput
  else .ok (bs.take n, bs.drop n)

/-- Modelled from the spec (§4.1 decode): read a fixed-width little-endian
unsigned integer of `n` bytes; fails on truncation. This stands for
`deserializeU8` … `deserializeU256` of the absent deserializer module. -/
def deserializeUIntLE (n : Nat) (bs : List Nat) : Except BcsError (Nat × List Nat) :=
  match readBytes n bs with
  | .error e => .error e
  | .ok (chunk, rest) => .ok (fromLEBytes chunk, rest)

/-- Modelled from the spec (§4.1): `Bool` encodes as one byte, 1 for true and
0 for false (`serializeBool` of the absent serializer module), appended to
the serializer's growing buffer. -/
def serializeBoolPrim (s : List Nat) (b : Bool) : List Nat :=
  s ++ [if b then 1 else 0]

/-- Modelled from the spec (§4.1 decode): `deserializeBool` reads one byte;
0 decodes to false, 1 to true, and any other byte is rejected as a
non-canonical boolean encoding. Fails on an empty buffer (truncation). -/
def deserializeBoolPrim (bs : List Nat) : Except BcsError (Bool × List Nat) :=
  match bs with
  | [] => .error .truncatedInput
  | b :: rest =>
    if b % 256 = 0 then .ok (false, rest)
    else if b % 256 = 1 then .ok (true, rest)
    else .error .nonCanonicalEncoding

/-- A JavaScript runtime value, as far as `ensureBoolean` can observe it:
the wrappers' constructors are reachable with non-boolean arguments (truthy
numbers, strings, null, undefined), which this type makes explicit. -/
inductive JsValue where
  | boolean : Bool → JsValue
  | number : Int → JsValue
  | bigintVal : Int → JsValue
  | stringVal : String → JsValue
  | nullVal : JsValue
  | undefinedVal : JsValue
deriving DecidableEq, Repr

/-- Modelled from the spec (§3, §7): `ensureBoolean` (serializer module,
absent from the given sources) throws a TypeError unless the value is an
actual boolean; on success the checked boolean is available for storing. -/
def ensureBoolean : JsValue → Except BcsError Bool
  | .boolean b => .ok b
  | _ => .error .typeError

/-- Modelled from the spec (§8 Range enforcement): `validateNumberInRange`
(serializer module, absent from the given sources) throws a RangeError when
the value lies outside `[lo, hi]`. -/
def validateNumberInRange (value lo hi : Int) : Except BcsError Unit :=
  if value < lo ∨ value > hi then .error .rangeError else .ok ()

-- Upper bound constants, from `consts.ts` (literals transcribed verbatim).

def MAX_U8_NUMBER : Int := 255

def MAX_U16_NUMBER : Int := 65535

def MAX_U32_NUMBER : Int := 4294967295

def MAX_U64_BIG_INT : Int := 18446744073709551615

def MAX_U128_BIG_INT : Int := 340282366920938463463374607431768211455

def MAX_U256_BIG_INT : Int :=
  115792089237316195423570985008687907853269984665640564039457584007913129639935

/-- `type AnyNumber = number | bigint` from `consts.ts`; both alternatives
carry the mathematical integer they denote. -/
inductive AnyNumber where
  | number : Int → AnyNumber
  | bigintVal : Int → AnyNumber
deriving DecidableEq, Repr

/-- `BigInt(value)` applied to an `AnyNumber`: the identity on the carried
mathematical integer (the constructors only ever apply it after range
validation succeeds). -/
def AnyNumber.toBigInt : AnyNumber → Int
  | .number n => n
  | .bigintVal n => n

/-- The `Bool` wrapper class of `movePrimitives.ts` (named `BoolW` because
`Bool` is taken by Lean's booleans): `public readonly value: boolean`. -/
structure BoolW where
  value : Bool
deriving DecidableEq, Repr

/-- `Bool`'s constructor: `ensureBoolean(value); this.value = value`. -/
def BoolW.create (v : JsValue) : Except BcsError BoolW :=
  match ensureBoolean v with
  | .error e => .error e
  | .ok b => .ok ⟨b⟩

/-- `Bool.serialize`: `serializer.serializeBool(this.value)`. -/
def BoolW.serialize (w : BoolW) (s : List Nat) : List Nat :=
  serializeBoolPrim s w.value

/-- The bytes `Bool.serialize` produces from an empty serializer buffer. -/
def BoolW.toBytes (w : BoolW) : List Nat :=
  w.serialize []

/-- `static Bool.deserialize`: `new Bool(deserializer.deserializeBool())`. -/
def BoolW.deserialize (bs : List Nat) : Except BcsError (BoolW × List Nat) :=
  match deserializeBoolPrim bs with
  | .error e => .error e
  | .ok (b, rest) =>
    match BoolW.create (.boolean b) with
    | .error e => .error e
    | .ok w => .ok (w, rest)

/-- The `U8` wrapper class: `public readonly value: Uint8` (a JS number). -/
structure U8 where
  value : Int
deriving DecidableEq, Repr

/-- `U8`'s constructor: `validateNumberInRange(value, 0, MAX_U8_NUMBER);
this.value = value`. -/
def U8.create (value : Int) : Except BcsError U8 :=
  match validateNumberInRange value 0 MAX_U8_NUMBER with
  | .error e => .error e
  | .ok _ => .ok ⟨value⟩

/-- `U8.serialize`: `serializer.serializeU8(this.value)` (1 byte). -/
def U8.serialize (w : U8) (s : List Nat) : List Nat :=
  s ++ toLEBytes 1 w.value.toNat

/-- The bytes `U8.serialize` produces from an empty serializer buffer. -/
def U8.toBytes (w : U8) : List Nat :=
  w.serialize []

/-- `static U8.deserialize`: `new U8(deserializer.deserializeU8())`. -/
def U8.deserialize (bs : List Nat) : Except BcsError (U8 × List Nat) :=
  match deserializeUIntLE 1 bs with
  | .error e => .error e
  | .ok (v, rest) =>
    match U8.create ((v : Nat) : Int) with
    | .error e => .error e
    | .ok w => .ok (w, rest)

/-- The `U16` wrapper class: `public readonly value: Uint16`. -/
structure U16 where
  value : Int
deriving DecidableEq, Repr

/-- `U16`'s constructor: `validateNumberInRange(value, 0, MAX_U16_NUMBER)`. -/
def U16.create (value : Int) : Except BcsError U16 :=
  match validateNumberInRange value 0 MAX_U16_NUMBER with
  | .error e => .error e
  | .ok _ => .ok ⟨value⟩

/-- `U16.serialize`: `serializer.serializeU16(this.value)` (2 bytes LE). -/
def U16.serialize (w : U16) (s : List Nat) : List Nat :=
  s ++ toLEBytes 2 w.value.toNat

/-- The bytes `U16.serialize` produces from an empty serializer buffer. -/
def U16.toBytes (w : U16) : List Nat :=
  w.serialize []

/-- `static U16.deserialize`: `new U16(deserializer.deserializeU16())`. -/
def U16.deserialize (bs : List Nat) : Except BcsError (U16 × List Nat) :=
  match deserializeUIntLE 2 bs with
  | .error e => .error e
  | .ok (v, rest) =>
    match U16.create ((v : Nat) : Int) with
    | .error e => .error e
    | .ok w => .ok (w, rest)

/-- The `U32` wrapper class: `public readonly value: Uint32`. -/
structure U32 where
  value : Int
deriving DecidableEq, Repr

/-- `U32`'s constructor: `validateNumberInRange(value, 0, MAX_U32_NUMBER)`. -/
def U32.create (value : Int) : Except BcsError U32 :=
  match validateNumberInRange value 0 MAX_U32_NUMBER with
  | .error e => .error e
  | .ok _ => .ok ⟨value⟩

/-- `U32.serialize`: `serializer.serializeU32(this.value)` (4 bytes LE). -/
def U32.serialize (w : U32) (s : List Nat) : List Nat :=
  s ++ toLEBytes 4 w.value.toNat

/-- The bytes `U32.serialize` produces from an empty serializer buffer. -/
def U32.toBytes (w : U32) : List Nat :=
  w.serialize []

/-- `static U32.deserialize`: `new U32(deserializer.deserializeU32())`. -/
def U32.deserialize (bs : List Nat) : Except BcsError (U32 × List Nat) :=
  match deserializeUIntLE 4 bs with
  | .error e => .error e
  | .ok (v, rest) =>
    match U32.create ((v : Nat) : Int) with
    | .error e => .error e
    | .ok w => .ok (w, rest)

/-- The `U64` wrapper class: `public readonly value: bigint`. -/
structure U64 where
  value : Int
deriving DecidableEq, Repr

/-- `U64`'s constructor: `validateNumberInRange(value, BigInt(0),
MAX_U64_BIG_INT); this.value = BigInt(value)`; accepts `AnyNumber`. -/
def U64.create (value : AnyNumber) : Except BcsError U64 :=
  match validateNumberInRange value.toBigInt 0 MAX_U64_BIG_INT with
  | .error e => .error e
  | .ok _ => .ok ⟨value.toBigInt⟩

/-- `U64.serialize`: `serializer.serializeU64(this.value)` (8 bytes LE). -/
def U64.serialize (w : U64) (s : List Nat) : List Nat :=
  s ++ toLEBytes 8 w.value.toNat

/-- The bytes `U64.serialize` produces from an empty serializer buffer. -/
def U64.toBytes (w : U64) : List Nat :=
  w.serialize []

/-- `static U64.deserialize`: `new U64(deserializer.deserializeU64())` (the
deserializer primitive yields a bigint). -/
def U64.deserialize (bs : List Nat) : Except BcsError (U64 × List Nat) :=
  match deserializeUIntLE 8 bs with
  | .error e => .error e
  | .ok (v, rest) =>
    match U64.create (.bigintVal ((v : Nat) : Int)) with
    | .error e => .error e
    | .ok w => .ok (w, rest)

/-- The `U128` wrapper class: `public readonly value: bigint`. -/
structure U128 where
  value : Int
deriving DecidableEq, Repr

/-- `U128`'s constructor: `validateNumberInRange(value, BigInt(0),
MAX_U128_BIG_INT); this.value = BigInt(value)`; accepts `AnyNumber`. -/
def U128.create (value : AnyNumber) : Except BcsError U128 :=
  match validateNumberInRange value.toBigInt 0 MAX_U128_BIG_INT with
  | .error e => .error e
  | .ok _ => .ok ⟨value.toBigInt⟩

/-- `U128.serialize`: `serializer.serializeU128(this.value)` (16 bytes LE). -/
def U128.serialize (w : U128) (s : List Nat) : List Nat :=
  s ++ toLEBytes 16 w.value.toNat

/-- The bytes `U128.serialize` produces from an empty serializer buffer. -/
def U128.toBytes (w : U128) : List Nat :=
  w.serialize []

/-- `static U128.deserialize`: `new U128(deserializer.deserializeU128())`. -/
def U128.deserialize (bs : List Nat) : Except BcsError (U128 × List Nat) :=
  match deserializeUIntLE 16 bs with
  | .error e => .error e
  | .ok (v, rest) =>
    match U128.create (.bigintVal ((v : Nat) : Int)) with
    | .error e => .error e
    | .ok w => .ok (w, rest)

/-- The `U256` wrapper class: `public readonly value: bigint`. -/
structure U256 where
  value : Int
deriving DecidableEq, Repr

/-- `U256`'s constructor: `validateNumberInRange(value, BigInt(0),
MAX_U256_BIG_INT); this.value = BigInt(value)`; accepts `AnyNumber`. -/
def U256.create (value : AnyNumber) : Except BcsError U256 :=
  match validateNumberInRange value.toBigInt 0 MAX_U256_BIG_INT with
  | .error e => .error e
  | .ok _ => .ok ⟨value.toBigInt⟩

/-- `U256.serialize`: `serializer.serializeU256(this.value)` (32 bytes LE). -/
def U256.serialize (w : U256) (s : List Nat) : List Nat :=
  s ++ toLEBytes 32 w.value.toNat

/-- The bytes `U256.serialize` produces from an empty serializer buffer. -/
def U256.toBytes (w : U256) : List Nat :=
  w.serialize []

/-- `static U256.deserialize`: `new U256(deserializer.deserializeU256())`. -/
def U256.deserialize (bs : List Nat) : Except BcsError (U256 × List Nat) :=
  match deserializeUIntLE 32 bs with
  | .error e => .error e
  | .ok (v, rest) =>
    match U256.create (.bigintVal ((v : Nat) : Int)) with
    | .error e => .error e
    | .ok w => .ok (w, rest)

/-- The instance method `deserialize` declared inside `class Bool`
(`movePrimitives.ts` lines 122-125): `return new
U256(deserializer.deserializeU256())`. It reads 32 bytes as a little-endian
U256 and returns a `U256` wrapper, not a `Bool`. -/
def BoolW.deserializeInstanceMethod (bs : List Nat) :
    Except BcsError (U256 × List Nat) :=
  match deserializeUIntLE 32 bs with
  | .error e => .error e
  | .ok (v, rest) =>
    match U256.create (.bigintVal ((v : Nat) : Int)) with
    | .error e => .error e
    | .ok w => .ok (w, rest)

-- Core little-endian lemmas shared by the round-trip and length theorems.

lemma toLEBytes_length (n v : Nat) : (toLEBytes n v).length = n := by
  induction n generalizing v with
  | zero => simp [toLEBytes]
  | succ n ih => simp [toLEBytes, ih]

lemma fromLEBytes_toLEBytes (n v : Nat) :
    fromLEBytes (toLEBytes n v) = v % 256 ^ n := by
  induction n generalizing v with
  | zero => simp [toLEBytes, fromLEBytes, Nat.mod_one]
  | succ n ih =>
    have hP : 0 < 256 ^ n := pow_pos (by norm_num) n
    have h3 : v % 256 < 256 := Nat.mod_lt _ (by norm_num)
    have h4 : v / 256 % 256 ^ n < 256 ^ n := Nat.mod_lt _ hP
    have hdecomp : v = (v % 256 + 256 * (v / 256 % 256 ^ n)) +
        256 ^ (n + 1) * (v / 256 / 256 ^ n) := by
      have h2 := Nat.div_add_mod (v / 256) (256 ^ n)
      calc v = 256 * (v / 256) + v % 256 := by omega
        _ = 256 * (256 ^ n * (v / 256 / 256 ^ n) + v / 256 % 256 ^ n) + v % 256 := by
            rw [h2]
        _ = (v % 256 + 256 * (v / 256 % 256 ^ n)) +
            256 ^ (n + 1) * (v / 256 / 256 ^ n) := by ring
    have hlt : v % 256 + 256 * (v / 256 % 256 ^ n) < 256 ^ (n + 1) := by
      have hpow : 256 ^ (n + 1) = 256 * 256 ^ n := by ring
      omega
    simp only [toLEBytes, fromLEBytes, ih]
    rw [Nat.mod_mod_of_dvd v (dvd_refl 256)]
    conv_rhs => rw [hdecomp]
    rw [Nat.add_mul_mod_self_left]
    exact (Nat.mod_eq_of_lt hlt).symm

lemma readBytes_append (n : Nat) (pre rest : List Nat) (h : pre.length = n) :
    readBytes n (pre ++ rest) = .ok (pre, rest) := by
  subst h
  have hlen : ¬ (pre ++ rest).length < pre.length := by
    simp [List.length_append]
  simp [readBytes, hlen, List.take_left, List.drop_left]

lemma deserializeUIntLE_toLEBytes (n v : Nat) (rest : List Nat) (h : v < 256 ^ n) :
    deserializeUIntLE n (toLEBytes n v ++ rest) = .ok (v, rest) := by
  unfold deserializeUIntLE
  rw [readBytes_append n _ _ (toLEBytes_length n v)]
  simp [fromLEBytes_toLEBytes, Nat.mod_eq_of_lt h]

-- ULEB128 codec, modelled from the spec (§4.2, §6); the serializer and
-- deserializer modules holding it are not among the given sources.

/-- Modelled from the spec (§4.2 encode): minimal ULEB128 encoding — the
value is split into 7-bit groups, low-order first; every byte except the
last has its high bit set; the minimal number of groups is emitted. -/
def ulebEncode (v : Nat) : List Nat :=
  if h : v < 128 then [v]
  else (v % 128 + 128) :: ulebEncode (v / 128)
termination_by v
decreasing_by exact Nat.div_lt_self (by omega) (by norm_num)

/-- Modelled from the spec (§4.2 decode, first stage): split the buffer into
7-bit groups, reading bytes until one with the high bit clear ends the run;
fails (`none`) when the buffer ends mid-run. This is the spec's raw parse —
"the raw value is recoverable" — before any canonicality check. -/
def ulebDecodeGroups : List Nat → Option (List Nat × List Nat)
  | [] => none
  | b :: bs =>
    if b % 256 < 128 then some ([b % 256], bs)
    else
      match ulebDecodeGroups bs with
      | some (gs, rest) => some ((b % 256 - 128) :: gs, rest)
      | none => none

/-- The numeric value of a run of 7-bit groups, low-order group first. -/
def groupsValue : List Nat → Nat
  | [] => 0
  | g :: gs => g + 128 * groupsValue gs

/-- The final 7-bit group of a run (the one carried by the terminating
byte); 0 for an empty run. -/
def lastGroup : List Nat → Nat
  | [] => 0
  | [g] => g
  | _ :: g :: gs => lastGroup (g :: gs)

/-- Modelled from the spec (§4.2 decode): full ULEB128 decode. A run of two
or more groups ending in a zero group is exactly a non-minimal (overlong)
encoding and is rejected as non-canonical; a value above the u32 ceiling is
rejected as overflow; otherwise the accumulated value is returned. -/
def ulebDecode (bs : List Nat) : Except BcsError (Nat × List Nat) :=
  match ulebDecodeGroups bs with
  | none => .error .truncatedInput
  | some (gs, rest) =>
    if 2 ≤ gs.length ∧ lastGroup gs = 0 then .error .nonCanonicalEncoding
    else if (groupsValue gs : Int) > MAX_U32_NUMBER then .error .overflow
    else .ok (groupsValue gs, rest)

lemma ulebDecodeGroups_ne_nil :
    ∀ bs gs rest, ulebDecodeGroups bs = some (gs, rest) → gs ≠ [] := by
  intro bs
  induction bs with
  | nil => intro gs rest h; simp [ulebDecodeGroups] at h
  | cons b bs ih =>
    intro gs rest h
    rw [ulebDecodeGroups] at h
    split at h
    · simp only [Option.some.injEq, Prod.mk.injEq] at h
      rcases h with ⟨hgs, -⟩
      subst hgs; simp
    · split at h
      · simp only [Option.some.injEq, Prod.mk.injEq] at h
        rcases h with ⟨hgs, -⟩
        subst hgs; simp
      · simp at h

lemma ulebDecodeGroups_groups_lt :
    ∀ bs gs rest, ulebDecodeGroups bs = some (gs, rest) →
      ∀ g ∈ gs, g < 128 := by
  intro bs
  induction bs with
  | nil => intro gs rest h; simp [ulebDecodeGroups] at h
  | cons b bs ih =>
    intro gs rest h
    rw [ulebDecodeGroups] at h
    split at h
    · simp only [Option.some.injEq, Prod.mk.injEq] at h
      rcases h with ⟨hgs, -⟩
      subst hgs
      intro g hg
      simp at hg
      omega
    · split at h
      · rename_i hnot gs' rest' heq
        simp only [Option.some.injEq, Prod.mk.injEq] at h
        rcases h with ⟨hgs, -⟩
        subst hgs
        intro g hg
        rcases List.mem_cons.mp hg with hg | hg
        · have : b % 256 < 256 := Nat.mod_lt _ (by norm_num)
          omega
        · exact ih gs' rest' heq g hg
      · simp at h

lemma groupsValue_ne_zero :
    ∀ gs, gs ≠ [] → lastGroup gs ≠ 0 → groupsValue gs ≠ 0 := by
  intro gs
  induction gs with
  | nil => intro h; exact absurd rfl h
  | cons g gs ih =>
    intro _ hlast
    cases gs with
    | nil =>
      simp [lastGroup] at hlast
      simp [groupsValue]
      omega
    | cons g2 gs2 =>
      have hlast2 : lastGroup (g2 :: gs2) ≠ 0 := hlast
      have hw := ih (by simp) hlast2
      show g + 128 * groupsValue (g2 :: gs2) ≠ 0
      omega

lemma ulebEncode_length_of_groups :
    ∀ gs, gs ≠ [] → (∀ g ∈ gs, g < 128) → lastGroup gs ≠ 0 →
      (ulebEncode (groupsValue gs)).length = gs.length := by
  intro gs
  induction gs with
  | nil => intro h; exact absurd rfl h
  | cons g gs ih =>
    intro _ hlt hlast
    cases gs with
    | nil =>
      have hg : g < 128 := hlt g (by simp)
      have hv : groupsValue [g] = g := by simp [groupsValue]
      rw [hv, ulebEncode, dif_pos hg]
    | cons g2 gs2 =>
      have hlast2 : lastGroup (g2 :: gs2) ≠ 0 := hlast
      have hw : groupsValue (g2 :: gs2) ≠ 0 :=
        groupsValue_ne_zero _ (by simp) hlast2
      have hg : g < 128 := hlt g (by simp)
      have hv : groupsValue (g :: g2 :: gs2) = g + 128 * groupsValue (g2 :: gs2) := rfl
      have hge : ¬ g + 128 * groupsValue (g2 :: gs2) < 128 := by omega
      have hdiv : (g + 128 * groupsValue (g2 :: gs2)) / 128 = groupsValue (g2 :: gs2) := by
        rw [Nat.add_mul_div_left _ _ (by norm_num : (0:Nat) < 128),
          Nat.div_eq_of_lt hg]
        omega
      rw [hv, ulebEncode, dif_neg hge, hdiv]
      have := ih (by simp) (fun x hx => hlt x (by simp [hx])) hlast2
      simp only [List.length_cons] at this ⊢
      omega

-- Helper lemmas about successful construction and about the round trip,
-- shared by several of the claim theorems below.

lemma u8_create_ok (v : Int) (h0 : 0 ≤ v) (h1 : v ≤ MAX_U8_NUMBER) :
    U8.create v = .ok ⟨v⟩ := by
  have hc : ¬ (v < 0 ∨ v > MAX_U8_NUMBER) := by omega
  simp [U8.create, validateNumberInRange, hc]

lemma u16_create_ok (v : Int) (h0 : 0 ≤ v) (h1 : v ≤ MAX_U16_NUMBER) :
    U16.create v = .ok ⟨v⟩ := by
  have hc : ¬ (v < 0 ∨ v > MAX_U16_NUMBER) := by omega
  simp [U16.create, validateNumberInRange, hc]

lemma u32_create_ok (v : Int) (h0 : 0 ≤ v) (h1 : v ≤ MAX_U32_NUMBER) :
    U32.create v = .ok ⟨v⟩ := by
  have hc : ¬ (v < 0 ∨ v > MAX_U32_NUMBER) := by omega
  simp [U32.create, validateNumberInRange, hc]

lemma u64_create_ok (a : AnyNumber) (h0 : 0 ≤ a.toBigInt)
    (h1 : a.toBigInt ≤ MAX_U64_BIG_INT) : U64.create a = .ok ⟨a.toBigInt⟩ := by
  have hc : ¬ (a.toBigInt < 0 ∨ a.toBigInt > MAX_U64_BIG_INT) := by omega
  simp [U64.create, validateNumberInRange, hc]

lemma u128_create_ok (a : AnyNumber) (h0 : 0 ≤ a.toBigInt)
    (h1 : a.toBigInt ≤ MAX_U128_BIG_INT) : U128.create a = .ok ⟨a.toBigInt⟩ := by
  have hc : ¬ (a.toBigInt < 0 ∨ a.toBigInt > MAX_U128_BIG_INT) := by omega
  simp [U128.create, validateNumberInRange, hc]

lemma u256_create_ok (a : AnyNumber) (h0 : 0 ≤ a.toBigInt)
    (h1 : a.toBigInt ≤ MAX_U256_BIG_INT) : U256.create a = .ok ⟨a.toBigInt⟩ := by
  have hc : ¬ (a.toBigInt < 0 ∨ a.toBigInt > MAX_U256_BIG_INT) := by omega
  simp [U256.create, validateNumberInRange, hc]

lemma boolw_roundtrip (b : Bool) :
    BoolW.deserialize (BoolW.toBytes ⟨b⟩) = .ok (⟨b⟩, []) := by
  cases b <;> rfl

lemma u8_roundtrip (v : Int) (h0 : 0 ≤ v) (h1 : v ≤ MAX_U8_NUMBER) :
    U8.deserialize (U8.toBytes ⟨v⟩) = .ok (⟨v⟩, []) := by
  have hmax : MAX_U8_NUMBER = 255 := rfl
  have hpow : (256 : Nat) ^ 1 = 256 := by norm_num
  have hv : v.toNat < 256 ^ 1 := by omega
  have h2 := deserializeUIntLE_toLEBytes 1 v.toNat [] hv
  rw [List.append_nil] at h2
  show U8.deserialize (toLEBytes 1 v.toNat) = .ok (⟨v⟩, [])
  simp [U8.deserialize, h2, Int.toNat_of_nonneg h0, u8_create_ok v h0 h1]

lemma u16_roundtrip (v : Int) (h0 : 0 ≤ v) (h1 : v ≤ MAX_U16_NUMBER) :
    U16.deserialize (U16.toBytes ⟨v⟩) = .ok (⟨v⟩, []) := by
  have hmax : MAX_U16_NUMBER = 65535 := rfl
  have hpow : (256 : Nat) ^ 2 = 65536 := by norm_num
  have hv : v.toNat < 256 ^ 2 := by omega
  have h2 := deserializeUIntLE_toLEBytes 2 v.toNat [] hv
  rw [List.append_nil] at h2
  show U16.deserialize (toLEBytes 2 v.toNat) = .ok (⟨v⟩, [])
  simp [U16.deserialize, h2, Int.toNat_of_nonneg h0, u16_create_ok v h0 h1]

lemma u32_roundtrip (v : Int) (h0 : 0 ≤ v) (h1 : v ≤ MAX_U32_NUMBER) :
    U32.deserialize (U32.toBytes ⟨v⟩) = .ok (⟨v⟩, []) := by
  have hmax : MAX_U32_NUMBER = 4294967295 := rfl
  have hpow : (256 : Nat) ^ 4 = 4294967296 := by norm_num
  have hv : v.toNat < 256 ^ 4 := by omega
  have h2 := deserializeUIntLE_toLEBytes 4 v.toNat [] hv
  rw [List.append_nil] at h2
  show U32.deserialize (toLEBytes 4 v.toNat) = .ok (⟨v⟩, [])
  simp [U32.deserialize, h2, Int.toNat_of_nonneg h0, u32_create_ok v h0 h1]

lemma u64_roundtrip (v : Int) (h0 : 0 ≤ v) (h1 : v ≤ MAX_U64_BIG_INT) :
    U64.deserialize (U64.toBytes ⟨v⟩) = .ok (⟨v⟩, []) := by
  have hmax : MAX_U64_BIG_INT = 18446744073709551615 := rfl
  have hpow : (256 : Nat) ^ 8 = 18446744073709551616 := by norm_num
  have hv : v.toNat < 256 ^ 8 := by omega
  have h2 := deserializeUIntLE_toLEBytes 8 v.toNat [] hv
  rw [List.append_nil] at h2
  have h3 := u64_create_ok (.bigintVal ((v.toNat : Nat) : Int))
    (by simp [AnyNumber.toBigInt]) (by simp [AnyNumber.toBigInt]; omega)
  rw [Int.toNat_of_nonneg h0] at h3
  simp only [AnyNumber.toBigInt] at h3
  show U64.deserialize (toLEBytes 8 v.toNat) = .ok (⟨v⟩, [])
  simp [U64.deserialize, h2, Int.toNat_of_nonneg h0, h3]

lemma u128_roundtrip (v : Int) (h0 : 0 ≤ v) (h1 : v ≤ MAX_U128_BIG_INT) :
    U128.deserialize (U128.toBytes ⟨v⟩) = .ok (⟨v⟩, []) := by
  have hmax : MAX_U128_BIG_INT = 340282366920938463463374607431768211455 := rfl
  have hpow : (256 : Nat) ^ 16 = 340282366920938463463374607431768211456 := by
    norm_num
  have hv : v.toNat < 256 ^ 16 := by omega
  have h2 := deserializeUIntLE_toLEBytes 16 v.toNat [] hv
  rw [List.append_nil] at h2
  have h3 := u128_create_ok (.bigintVal ((v.toNat : Nat) : Int))
    (by simp [AnyNumber.toBigInt]) (by simp [AnyNumber.toBigInt]; omega)
  rw [Int.toNat_of_nonneg h0] at h3
  simp only [AnyNumber.toBigInt] at h3
  show U128.deserialize (toLEBytes 16 v.toNat) = .ok (⟨v⟩, [])
  simp [U128.deserialize, h2, Int.toNat_of_nonneg h0, h3]

lemma u256_roundtrip (v : Int) (h0 : 0 ≤ v) (h1 : v ≤ MAX_U256_BIG_INT) :
    U256.deserialize (U256.toBytes ⟨v⟩) = .ok (⟨v⟩, []) := by
  have hmax : MAX_U256_BIG_INT =
      115792089237316195423570985008687907853269984665640564039457584007913129639935 := rfl
  have hpow : (256 : Nat) ^ 32 =
      115792089237316195423570985008687907853269984665640564039457584007913129639936 := by
    norm_num
  have hv : v.toNat < 256 ^ 32 := by omega
  have h2 := deserializeUIntLE_toLEBytes 32 v.toNat [] hv
  rw [List.append_nil] at h2
  have h3 := u256_create_ok (.bigintVal ((v.toNat : Nat) : Int))
    (by simp [AnyNumber.toBigInt]) (by simp [AnyNumber.toBigInt]; omega)
  rw [Int.toNat_of_nonneg h0] at h3
  simp only [AnyNumber.toBigInt] at h3
  show U256.deserialize (toLEBytes 32 v.toNat) = .ok (⟨v⟩, [])
  simp [U256.deserialize, h2, Int.toNat_of_nonneg h0, h3]

-- Claim theorems.

/-- C6: the upper-bound constants used for construction-time range
validation each equal exactly `2 ^ N - 1` for their width `N`:
`MAX_U8_NUMBER = 2^8 - 1`, `MAX_U16_NUMBER = 2^16 - 1`,
`MAX_U32_NUMBER = 2^32 - 1`, `MAX_U64_BIG_INT = 2^64 - 1`,
`MAX_U128_BIG_INT = 2^128 - 1`, `MAX_U256_BIG_INT = 2^256 - 1`. -/
theorem max_constants_equal_pow_sub_one :
    MAX_U8_NUMBER = 2 ^ 8 - 1 ∧ MAX_U16_NUMBER = 2 ^ 16 - 1 ∧
    MAX_U32_NUMBER = 2 ^ 32 - 1 ∧ MAX_U64_BIG_INT = 2 ^ 64 - 1 ∧
    MAX_U128_BIG_INT = 2 ^ 128 - 1 ∧ MAX_U256_BIG_INT = 2 ^ 256 - 1 := by
  refine ⟨?_, ?_, ?_, ?_, ?_, ?_⟩ <;>
    norm_num [MAX_U8_NUMBER, MAX_U16_NUMBER, MAX_U32_NUMBER, MAX_U64_BIG_INT,
      MAX_U128_BIG_INT, MAX_U256_BIG_INT]

/-- C5: the `Bool` wrapper's constructor succeeds only on an actual boolean:
every non-boolean JavaScript value (truthy ones such as the number 1 or a
non-empty string included) is rejected with a TypeError, and on success the
stored value equals the given boolean. -/
theorem bool_constructor_requires_boolean :
    (∀ v : JsValue, (∀ b : Bool, v ≠ .boolean b) →
      BoolW.create v = .error .typeError) ∧
    (∀ b : Bool, BoolW.create (.boolean b) = .ok ⟨b⟩) := by
  constructor
  · intro v hv
    cases v with
    | boolean b => exact absurd rfl (hv b)
    | number n => rfl
    | bigintVal n => rfl
    | stringVal s => rfl
    | nullVal => rfl
    | undefinedVal => rfl
  · intro b; rfl

/-- Witness for C5 at concrete inputs: the truthy number 1 and a non-empty
string are rejected with a TypeError; the boolean true is stored as-is. -/
theorem bool_constructor_requires_boolean_witness :
    BoolW.create (.number 1) = .error .typeError ∧
    BoolW.create (.stringVal "x") = .error .typeError ∧
    BoolW.create (.boolean true) = .ok ⟨true⟩ :=
  ⟨bool_constructor_requires_boolean.1 (.number 1) (by decide),
   bool_constructor_requires_boolean.1 (.stringVal "x") (by decide),
   bool_constructor_requires_boolean.2 true⟩

/-- C4: decoding a Bool from a buffer whose next byte is 0x00 yields false,
from 0x01 yields true, and from any other byte value fails with a
non-canonical-encoding error. -/
theorem bool_decode_canonical (rest : List Nat) :
    BoolW.deserialize (0 :: rest) = .ok (⟨false⟩, rest) ∧
    BoolW.deserialize (1 :: rest) = .ok (⟨true⟩, rest) ∧
    (∀ b : Nat, b < 256 → b ≠ 0 → b ≠ 1 →
      BoolW.deserialize (b :: rest) = .error .nonCanonicalEncoding) := by
  refine ⟨rfl, rfl, ?_⟩
  intro b hb hb0 hb1
  have hm : b % 256 = b := Nat.mod_eq_of_lt hb
  simp [BoolW.deserialize, deserializeBoolPrim, hm, hb0, hb1]

/-- Witness for C4 at the concrete byte 0x02: decoding it as Bool fails with
the non-canonical-encoding error. -/
theorem bool_decode_canonical_witness :
    BoolW.deserialize [2] = .error .nonCanonicalEncoding :=
  (bool_decode_canonical []).2.2 2 (by decide) (by decide) (by decide)

/-- C3: for each width N in {8,16,32,64,128,256}, constructing the width-N
unsigned wrapper with a value outside `[0, 2^N - 1]` fails with a
RangeError, while constructing it with value 0 or with value `2^N - 1`
succeeds (the bound constants equal `2^N - 1`, claim C6). -/
theorem construct_range_enforcement
    (v8 v16 v32 : Int) (a64 a128 a256 : AnyNumber)
    (h8 : v8 < 0 ∨ v8 > MAX_U8_NUMBER)
    (h16 : v16 < 0 ∨ v16 > MAX_U16_NUMBER)
    (h32 : v32 < 0 ∨ v32 > MAX_U32_NUMBER)
    (h64 : a64.toBigInt < 0 ∨ a64.toBigInt > MAX_U64_BIG_INT)
    (h128 : a128.toBigInt < 0 ∨ a128.toBigInt > MAX_U128_BIG_INT)
    (h256 : a256.toBigInt < 0 ∨ a256.toBigInt > MAX_U256_BIG_INT) :
    U8.create v8 = .error .rangeError ∧
    U16.create v16 = .error .rangeError ∧
    U32.create v32 = .error .rangeError ∧
    U64.create a64 = .error .rangeError ∧
    U128.create a128 = .error .rangeError ∧
    U256.create a256 = .error .rangeError ∧
    U8.create 0 = .ok ⟨0⟩ ∧ U8.create 255 = .ok ⟨255⟩ ∧
    U16.create 0 = .ok ⟨0⟩ ∧ U16.create 65535 = .ok ⟨65535⟩ ∧
    U32.create 0 = .ok ⟨0⟩ ∧ U32.create 4294967295 = .ok ⟨4294967295⟩ ∧
    U64.create (.bigintVal 0) = .ok ⟨0⟩ ∧
    U64.create (.bigintVal (2 ^ 64 - 1)) = .ok ⟨2 ^ 64 - 1⟩ ∧
    U128.create (.bigintVal 0) = .ok ⟨0⟩ ∧
    U128.create (.bigintVal (2 ^ 128 - 1)) = .ok ⟨2 ^ 128 - 1⟩ ∧
    U256.create (.bigintVal 0) = .ok ⟨0⟩ ∧
    U256.create (.bigintVal (2 ^ 256 - 1)) = .ok ⟨2 ^ 256 - 1⟩ := by
  refine ⟨?_, ?_, ?_, ?_, ?_, ?_, ?_, ?_, ?_, ?_, ?_, ?_, ?_, ?_, ?_, ?_, ?_, ?_⟩
  · simp only [U8.create, validateNumberInRange, if_pos h8]
  · simp only [U16.create, validateNumberInRange, if_pos h16]
  · simp only [U32.create, validateNumberInRange, if_pos h32]
  · simp only [U64.create, validateNumberInRange, if_pos h64]
  · simp only [U128.create, validateNumberInRange, if_pos h128]
  · simp only [U256.create, validateNumberInRange, if_pos h256]
  · exact u8_create_ok 0 (by norm_num) (by norm_num [MAX_U8_NUMBER])
  · exact u8_create_ok 255 (by norm_num) (by norm_num [MAX_U8_NUMBER])
  · exact u16_create_ok 0 (by norm_num) (by norm_num [MAX_U16_NUMBER])
  · exact u16_create_ok 65535 (by norm_num) (by norm_num [MAX_U16_NUMBER])
  · exact u32_create_ok 0 (by norm_num) (by norm_num [MAX_U32_NUMBER])
  · exact u32_create_ok 4294967295 (by norm_num) (by norm_num [MAX_U32_NUMBER])
  · exact u64_create_ok (.bigintVal 0) (by norm_num [AnyNumber.toBigInt])
      (by norm_num [AnyNumber.toBigInt, MAX_U64_BIG_INT])
  · exact u64_create_ok (.bigintVal (2 ^ 64 - 1))
      (by norm_num [AnyNumber.toBigInt])
      (by norm_num [AnyNumber.toBigInt, MAX_U64_BIG_INT])
  · exact u128_create_ok (.bigintVal 0) (by norm_num [AnyNumber.toBigInt])
      (by norm_num [AnyNumber.toBigInt, MAX_U128_BIG_INT])
  · exact u128_create_ok (.bigintVal (2 ^ 128 - 1))
      (by norm_num [AnyNumber.toBigInt])
      (by norm_num [AnyNumber.toBigInt, MAX_U128_BIG_INT])
  · exact u256_create_ok (.bigintVal 0) (by norm_num [AnyNumber.toBigInt])
      (by norm_num [AnyNumber.toBigInt, MAX_U256_BIG_INT])
  · exact u256_create_ok (.bigintVal (2 ^ 256 - 1))
      (by norm_num [AnyNumber.toBigInt])
      (by norm_num [AnyNumber.toBigInt, MAX_U256_BIG_INT])

/-- Witness for C3 at concrete out-of-range inputs: U8 with 256 and U64
with the negative number -1 both fail with a RangeError. -/
theorem construct_range_enforcement_witness :
    U8.create 256 = .error .rangeError ∧
    U64.create (.number (-1)) = .error .rangeError := by
  have h := construct_range_enforcement 256 65536 4294967296 (.number (-1))
    (.bigintVal (2 ^ 128)) (.bigintVal (-5))
    (by norm_num [MAX_U8_NUMBER]) (by norm_num [MAX_U16_NUMBER])
    (by norm_num [MAX_U32_NUMBER]) (by norm_num [AnyNumber.toBigInt])
    (by norm_num [AnyNumber.toBigInt, MAX_U128_BIG_INT])
    (by norm_num [AnyNumber.toBigInt])
  exact ⟨h.1, h.2.2.2.1⟩

/-- C2: for every valid typed value of every primitive wrapper type,
deserializing the bytes produced by serializing it yields an equal wrapper
with the whole buffer consumed; the decoded wrapper being equal to the
original, its re-serialization is byte-identical to the original encoding. -/
theorem primitive_roundtrip (b : Bool) (v8 v16 v32 v64 v128 v256 : Int)
    (h8 : 0 ≤ v8 ∧ v8 ≤ MAX_U8_NUMBER)
    (h16 : 0 ≤ v16 ∧ v16 ≤ MAX_U16_NUMBER)
    (h32 : 0 ≤ v32 ∧ v32 ≤ MAX_U32_NUMBER)
    (h64 : 0 ≤ v64 ∧ v64 ≤ MAX_U64_BIG_INT)
    (h128 : 0 ≤ v128 ∧ v128 ≤ MAX_U128_BIG_INT)
    (h256 : 0 ≤ v256 ∧ v256 ≤ MAX_U256_BIG_INT) :
    BoolW.deserialize (BoolW.toBytes ⟨b⟩) = .ok (⟨b⟩, []) ∧
    U8.deserialize (U8.toBytes ⟨v8⟩) = .ok (⟨v8⟩, []) ∧
    U16.deserialize (U16.toBytes ⟨v16⟩) = .ok (⟨v16⟩, []) ∧
    U32.deserialize (U32.toBytes ⟨v32⟩) = .ok (⟨v32⟩, []) ∧
    U64.deserialize (U64.toBytes ⟨v64⟩) = .ok (⟨v64⟩, []) ∧
    U128.deserialize (U128.toBytes ⟨v128⟩) = .ok (⟨v128⟩, []) ∧
    U256.deserialize (U256.toBytes ⟨v256⟩) = .ok (⟨v256⟩, []) :=
  ⟨boolw_roundtrip b, u8_roundtrip v8 h8.1 h8.2, u16_roundtrip v16 h16.1 h16.2,
   u32_roundtrip v32 h32.1 h32.2, u64_roundtrip v64 h64.1 h64.2,
   u128_roundtrip v128 h128.1 h128.2, u256_roundtrip v256 h256.1 h256.2⟩

/-- Witness for C2 at concrete values of every primitive wrapper type. -/
theorem primitive_roundtrip_witness :
    BoolW.deserialize (BoolW.toBytes ⟨true⟩) = .ok (⟨true⟩, []) ∧
    U8.deserialize (U8.toBytes ⟨171⟩) = .ok (⟨171⟩, []) ∧
    U16.deserialize (U16.toBytes ⟨300⟩) = .ok (⟨300⟩, []) ∧
    U32.deserialize (U32.toBytes ⟨70000⟩) = .ok (⟨70000⟩, []) ∧
    U64.deserialize (U64.toBytes ⟨1099511627781⟩) = .ok (⟨1099511627781⟩, []) ∧
    U128.deserialize (U128.toBytes ⟨2 ^ 100 + 7⟩) = .ok (⟨2 ^ 100 + 7⟩, []) ∧
    U256.deserialize (U256.toBytes ⟨2 ^ 200 + 9⟩) = .ok (⟨2 ^ 200 + 9⟩, []) :=
  primitive_roundtrip true 171 300 70000 1099511627781 (2 ^ 100 + 7) (2 ^ 200 + 9)
    (by norm_num [MAX_U8_NUMBER]) (by norm_num [MAX_U16_NUMBER])
    (by norm_num [MAX_U32_NUMBER]) (by norm_num [MAX_U64_BIG_INT])
    (by norm_num [MAX_U128_BIG_INT]) (by norm_num [MAX_U256_BIG_INT])

/-- C7: serializing each fixed-width primitive appends exactly its fixed
byte count in little-endian order (U8 one byte, U16 two, U32 four, U64
eight, U128 sixteen, U256 thirty-two, Bool one byte holding 1 for true and
0 for false); the closing conjuncts pin the little-endian byte order on
concrete multi-byte values. -/
theorem serialize_fixed_width (s : List Nat) (b : Bool)
    (v8 v16 v32 v64 v128 v256 : Int) :
    BoolW.serialize ⟨b⟩ s = s ++ [if b then 1 else 0] ∧
    (BoolW.serialize ⟨b⟩ s).length = s.length + 1 ∧
    U8.serialize ⟨v8⟩ s = s ++ toLEBytes 1 v8.toNat ∧
    (U8.serialize ⟨v8⟩ s).length = s.length + 1 ∧
    U16.serialize ⟨v16⟩ s = s ++ toLEBytes 2 v16.toNat ∧
    (U16.serialize ⟨v16⟩ s).length = s.length + 2 ∧
    U32.serialize ⟨v32⟩ s = s ++ toLEBytes 4 v32.toNat ∧
    (U32.serialize ⟨v32⟩ s).length = s.length + 4 ∧
    U64.serialize ⟨v64⟩ s = s ++ toLEBytes 8 v64.toNat ∧
    (U64.serialize ⟨v64⟩ s).length = s.length + 8 ∧
    U128.serialize ⟨v128⟩ s = s ++ toLEBytes 16 v128.toNat ∧
    (U128.serialize ⟨v128⟩ s).length = s.length + 16 ∧
    U256.serialize ⟨v256⟩ s = s ++ toLEBytes 32 v256.toNat ∧
    (U256.serialize ⟨v256⟩ s).length = s.length + 32 ∧
    BoolW.toBytes ⟨true⟩ = [1] ∧ BoolW.toBytes ⟨false⟩ = [0] ∧
    U16.toBytes ⟨258⟩ = [2, 1] ∧
    U32.toBytes ⟨16909060⟩ = [4, 3, 2, 1] := by
  refine ⟨rfl, ?_, rfl, ?_, rfl, ?_, rfl, ?_, rfl, ?_, rfl, ?_, rfl, ?_,
    rfl, rfl, rfl, rfl⟩
  · simp [BoolW.serialize, serializeBoolPrim]
  · simp [U8.serialize, toLEBytes_length]
  · simp [U16.serialize, toLEBytes_length]
  · simp [U32.serialize, toLEBytes_length]
  · simp [U64.serialize, toLEBytes_length]
  · simp [U128.serialize, toLEBytes_length]
  · simp [U256.serialize, toLEBytes_length]

/-- C10: the U64, U128 and U256 constructors accept both a native number
and a bigint carrying the same mathematical value, normalize to bigint, and
store `BigInt(x)`: for every in-range integer, constructing from the number
and from the bigint yields wrappers with identical stored values, hence
identical encodings. -/
theorem anynumber_normalization (n64 n128 n256 : Int)
    (h64 : 0 ≤ n64 ∧ n64 ≤ MAX_U64_BIG_INT)
    (h128 : 0 ≤ n128 ∧ n128 ≤ MAX_U128_BIG_INT)
    (h256 : 0 ≤ n256 ∧ n256 ≤ MAX_U256_BIG_INT) :
    U64.create (.number n64) = .ok ⟨n64⟩ ∧
    U64.create (.bigintVal n64) = .ok ⟨n64⟩ ∧
    U64.create (.number n64) = U64.create (.bigintVal n64) ∧
    U128.create (.number n128) = .ok ⟨n128⟩ ∧
    U128.create (.bigintVal n128) = .ok ⟨n128⟩ ∧
    U128.create (.number n128) = U128.create (.bigintVal n128) ∧
    U256.create (.number n256) = .ok ⟨n256⟩ ∧
    U256.create (.bigintVal n256) = .ok ⟨n256⟩ ∧
    U256.create (.number n256) = U256.create (.bigintVal n256) := by
  have a64 := u64_create_ok (.number n64) h64.1 h64.2
  have b64 := u64_create_ok (.bigintVal n64) h64.1 h64.2
  have a128 := u128_create_ok (.number n128) h128.1 h128.2
  have b128 := u128_create_ok (.bigintVal n128) h128.1 h128.2
  have a256 := u256_create_ok (.number n256) h256.1 h256.2
  have b256 := u256_create_ok (.bigintVal n256) h256.1 h256.2
  exact ⟨a64, b64, a64.trans b64.symm, a128, b128, a128.trans b128.symm,
    a256, b256, a256.trans b256.symm⟩

/-- Witness for C10 at the concrete value 300 for U64 (and 2^70, 2^130 for
U128, U256): number- and bigint-sourced construction agree. -/
theorem anynumber_normalization_witness :
    U64.create (.number 300) = .ok ⟨300⟩ ∧
    U64.create (.bigintVal 300) = .ok ⟨300⟩ ∧
    U64.create (.number 300) = U64.create (.bigintVal 300) ∧
    U128.create (.number (2 ^ 70)) = .ok ⟨2 ^ 70⟩ ∧
    U128.create (.bigintVal (2 ^ 70)) = .ok ⟨2 ^ 70⟩ ∧
    U128.create (.number (2 ^ 70)) = U128.create (.bigintVal (2 ^ 70)) ∧
    U256.create (.number (2 ^ 130)) = .ok ⟨2 ^ 130⟩ ∧
    U256.create (.bigintVal (2 ^ 130)) = .ok ⟨2 ^ 130⟩ ∧
    U256.create (.number (2 ^ 130)) = U256.create (.bigintVal (2 ^ 130)) :=
  anynumber_normalization 300 (2 ^ 70) (2 ^ 130)
    (by norm_num [MAX_U64_BIG_INT]) (by norm_num [MAX_U128_BIG_INT])
    (by norm_num [MAX_U256_BIG_INT])

-- Inversion helpers: a successfully constructed wrapper is in range.

lemma u8_create_inv (v : Int) (w : U8) (h : U8.create v = .ok w) :
    0 ≤ w.value ∧ w.value ≤ MAX_U8_NUMBER := by
  obtain ⟨wv⟩ := w
  by_cases hc : v < 0 ∨ v > MAX_U8_NUMBER
  · simp [U8.create, validateNumberInRange, hc] at h
  · simp [U8.create, validateNumberInRange, hc, U8.mk.injEq] at h
    show 0 ≤ wv ∧ wv ≤ MAX_U8_NUMBER
    omega

lemma u16_create_inv (v : Int) (w : U16) (h : U16.create v = .ok w) :
    0 ≤ w.value ∧ w.value ≤ MAX_U16_NUMBER := by
  obtain ⟨wv⟩ := w
  by_cases hc : v < 0 ∨ v > MAX_U16_NUMBER
  · simp [U16.create, validateNumberInRange, hc] at h
  · simp [U16.create, validateNumberInRange, hc, U16.mk.injEq] at h
    show 0 ≤ wv ∧ wv ≤ MAX_U16_NUMBER
    omega

lemma u32_create_inv (v : Int) (w : U32) (h : U32.create v = .ok w) :
    0 ≤ w.value ∧ w.value ≤ MAX_U32_NUMBER := by
  obtain ⟨wv⟩ := w
  by_cases hc : v < 0 ∨ v > MAX_U32_NUMBER
  · simp [U32.create, validateNumberInRange, hc] at h
  · simp [U32.create, validateNumberInRange, hc, U32.mk.injEq] at h
    show 0 ≤ wv ∧ wv ≤ MAX_U32_NUMBER
    omega

lemma u64_create_inv (a : AnyNumber) (w : U64) (h : U64.create a = .ok w) :
    0 ≤ w.value ∧ w.value ≤ MAX_U64_BIG_INT := by
  obtain ⟨wv⟩ := w
  by_cases hc : a.toBigInt < 0 ∨ a.toBigInt > MAX_U64_BIG_INT
  · simp [U64.create, validateNumberInRange, hc] at h
  · simp [U64.create, validateNumberInRange, hc, U64.mk.injEq] at h
    show 0 ≤ wv ∧ wv ≤ MAX_U64_BIG_INT
    omega

lemma u128_create_inv (a : AnyNumber) (w : U128) (h : U128.create a = .ok w) :
    0 ≤ w.value ∧ w.value ≤ MAX_U128_BIG_INT := by
  obtain ⟨wv⟩ := w
  by_cases hc : a.toBigInt < 0 ∨ a.toBigInt > MAX_U128_BIG_INT
  · simp [U128.create, validateNumberInRange, hc] at h
  · simp [U128.create, validateNumberInRange, hc, U128.mk.injEq] at h
    show 0 ≤ wv ∧ wv ≤ MAX_U128_BIG_INT
    omega

lemma u256_create_inv (a : AnyNumber) (w : U256) (h : U256.create a = .ok w) :
    0 ≤ w.value ∧ w.value ≤ MAX_U256_BIG_INT := by
  obtain ⟨wv⟩ := w
  by_cases hc : a.toBigInt < 0 ∨ a.toBigInt > MAX_U256_BIG_INT
  · simp [U256.create, validateNumberInRange, hc] at h
  · simp [U256.create, validateNumberInRange, hc, U256.mk.injEq] at h
    show 0 ≤ wv ∧ wv ≤ MAX_U256_BIG_INT
    omega

/-- C9: range validation runs before the value is stored, so a wrapper that
the API ever produces — by construction or by deserialization — holds a
value inside its width's bound; serialization reads the stored value and
returns only a new buffer, leaving the wrapper untouched (wrappers are
immutable structures with readonly fields in the embedding). -/
theorem wrapper_validity_invariant :
    (∀ v w, U8.create v = .ok w → 0 ≤ w.value ∧ w.value ≤ MAX_U8_NUMBER) ∧
    (∀ bs w rest, U8.deserialize bs = .ok (w, rest) →
      0 ≤ w.value ∧ w.value ≤ MAX_U8_NUMBER) ∧
    (∀ v w, U16.create v = .ok w → 0 ≤ w.value ∧ w.value ≤ MAX_U16_NUMBER) ∧
    (∀ bs w rest, U16.deserialize bs = .ok (w, rest) →
      0 ≤ w.value ∧ w.value ≤ MAX_U16_NUMBER) ∧
    (∀ v w, U32.create v = .ok w → 0 ≤ w.value ∧ w.value ≤ MAX_U32_NUMBER) ∧
    (∀ bs w rest, U32.deserialize bs = .ok (w, rest) →
      0 ≤ w.value ∧ w.value ≤ MAX_U32_NUMBER) ∧
    (∀ a w, U64.create a = .ok w → 0 ≤ w.value ∧ w.value ≤ MAX_U64_BIG_INT) ∧
    (∀ bs w rest, U64.deserialize bs = .ok (w, rest) →
      0 ≤ w.value ∧ w.value ≤ MAX_U64_BIG_INT) ∧
    (∀ a w, U128.create a = .ok w → 0 ≤ w.value ∧ w.value ≤ MAX_U128_BIG_INT) ∧
    (∀ bs w rest, U128.deserialize bs = .ok (w, rest) →
      0 ≤ w.value ∧ w.value ≤ MAX_U128_BIG_INT) ∧
    (∀ a w, U256.create a = .ok w → 0 ≤ w.value ∧ w.value ≤ MAX_U256_BIG_INT) ∧
    (∀ bs w rest, U256.deserialize bs = .ok (w, rest) →
      0 ≤ w.value ∧ w.value ≤ MAX_U256_BIG_INT) := by
  refine ⟨u8_create_inv, ?_, u16_create_inv, ?_, u32_create_inv, ?_,
    u64_create_inv, ?_, u128_create_inv, ?_, u256_create_inv, ?_⟩
  · intro bs w rest h
    unfold U8.deserialize at h
    cases heq : deserializeUIntLE 1 bs with
    | error e => rw [heq] at h; simp at h
    | ok p =>
      obtain ⟨v, r⟩ := p
      rw [heq] at h
      simp only [] at h
      cases heq2 : U8.create ((v : Nat) : Int) with
      | error e => rw [heq2] at h; simp at h
      | ok w2 =>
        rw [heq2] at h
        simp only [Except.ok.injEq, Prod.mk.injEq] at h
        obtain ⟨h1, -⟩ := h
        subst h1
        exact u8_create_inv _ _ heq2
  · intro bs w rest h
    unfold U16.deserialize at h
    cases heq : deserializeUIntLE 2 bs with
    | error e => rw [heq] at h; simp at h
    | ok p =>
      obtain ⟨v, r⟩ := p
      rw [heq] at h
      simp only [] at h
      cases heq2 : U16.create ((v : Nat) : Int) with
      | error e => rw [heq2] at h; simp at h
      | ok w2 =>
        rw [heq2] at h
        simp only [Except.ok.injEq, Prod.mk.injEq] at h
        obtain ⟨h1, -⟩ := h
        subst h1
        exact u16_create_inv _ _ heq2
  · intro bs w rest h
    unfold U32.deserialize at h
    cases heq : deserializeUIntLE 4 bs with
    | error e => rw [heq] at h; simp at h
    | ok p =>
      obtain ⟨v, r⟩ := p
      rw [heq] at h
      simp only [] at h
      cases heq2 : U32.create ((v : Nat) : Int) with
      | error e => rw [heq2] at h; simp at h
      | ok w2 =>
        rw [heq2] at h
        simp only [Except.ok.injEq, Prod.mk.injEq] at h
        obtain ⟨h1, -⟩ := h
        subst h1
        exact u32_create_inv _ _ heq2
  · intro bs w rest h
    unfold U64.deserialize at h
    cases heq : deserializeUIntLE 8 bs with
    | error e => rw [heq] at h; simp at h
    | ok p =>
      obtain ⟨v, r⟩ := p
      rw [heq] at h
      simp only [] at h
      cases heq2 : U64.create (.bigintVal ((v : Nat) : Int)) with
      | error e => rw [heq2] at h; simp at h
      | ok w2 =>
        rw [heq2] at h
        simp only [Except.ok.injEq, Prod.mk.injEq] at h
        obtain ⟨h1, -⟩ := h
        subst h1
        exact u64_create_inv _ _ heq2
  · intro bs w rest h
    unfold U128.deserialize at h
    cases heq : deserializeUIntLE 16 bs with
    | error e => rw [heq] at h; simp at h
    | ok p =>
      obtain ⟨v, r⟩ := p
      rw [heq] at h
      simp only [] at h
      cases heq2 : U128.create (.bigintVal ((v : Nat) : Int)) with
      | error e => rw [heq2] at h; simp at h
      | ok w2 =>
        rw [heq2] at h
        simp only [Except.ok.injEq, Prod.mk.injEq] at h
        obtain ⟨h1, -⟩ := h
        subst h1
        exact u128_create_inv _ _ heq2
  · intro bs w rest h
    unfold U256.deserialize at h
    cases heq : deserializeUIntLE 32 bs with
    | error e => rw [heq] at h; simp at h
    | ok p =>
      obtain ⟨v, r⟩ := p
      rw [heq] at h
      simp only [] at h
      cases heq2 : U256.create (.bigintVal ((v : Nat) : Int)) with
      | error e => rw [heq2] at h; simp at h
      | ok w2 =>
        rw [heq2] at h
        simp only [Except.ok.injEq, Prod.mk.injEq] at h
        obtain ⟨h1, -⟩ := h
        subst h1
        exact u256_create_inv _ _ heq2

/-- Witness for C9 at concrete inputs: the wrapper built by `U8.create 7`
and the wrapper decoded by `U64.deserialize` from eight 0xFF bytes both
hold values inside their width's bound. -/
theorem wrapper_validity_invariant_witness :
    (0 ≤ (U8.mk 7).value ∧ (U8.mk 7).value ≤ MAX_U8_NUMBER) ∧
    (0 ≤ (U64.mk 18446744073709551615).value ∧
      (U64.mk 18446744073709551615).value ≤ MAX_U64_BIG_INT) :=
  ⟨wrapper_validity_invariant.1 7 ⟨7⟩ rfl,
   wrapper_validity_invariant.2.2.2.2.2.2.2.1
     (List.replicate 8 255) ⟨18446744073709551615⟩ [] rfl⟩

/-- C1 (code bug): the claim — every wrapper's `deserialize` returns a
value of the wrapper's own type, Bool's decoded from one boolean byte —
fails on `class Bool`'s instance method `deserialize`, which executes
`new U256(deserializer.deserializeU256())`. Evaluated at the failing input:
on 32 zero bytes it returns a `U256` wrapper (value 0), consuming all 32
bytes; on the 1-byte buffer `[0x01]` it fails as truncated even though a
boolean decode of that buffer succeeds — as the correct static
`Bool.deserialize` shows. -/
theorem bool_instance_deserialize_returns_u256 :
    BoolW.deserializeInstanceMethod (List.replicate 32 0) =
      .ok ((⟨0⟩ : U256), []) ∧
    BoolW.deserializeInstanceMethod [1] = .error .truncatedInput ∧
    BoolW.deserialize [1] = .ok (⟨true⟩, []) :=
  ⟨rfl, rfl, rfl⟩

/-- C8: the ULEB128 decoder rejects every non-minimal (overlong) encoding —
whenever the raw group parse of a buffer succeeds but the run of groups is
longer than the minimal encoding of the value those groups denote, the full
decode fails with the non-canonical-encoding error. -/
theorem uleb_nonminimal_rejected (bs gs rest : List Nat) (v : Nat)
    (hgroups : ulebDecodeGroups bs = some (gs, rest))
    (hval : groupsValue gs = v)
    (hover : (ulebEncode v).length < gs.length) :
    ulebDecode bs = .error .nonCanonicalEncoding := by
  subst hval
  have hne : gs ≠ [] := ulebDecodeGroups_ne_nil bs gs rest hgroups
  have hlt : ∀ g ∈ gs, g < 128 := ulebDecodeGroups_groups_lt bs gs rest hgroups
  have hlast : lastGroup gs = 0 := by
    by_contra hc
    have := ulebEncode_length_of_groups gs hne hlt hc
    omega
  have h2 : 2 ≤ gs.length := by
    rcases gs with - | ⟨g, gs'⟩
    · exact absurd rfl hne
    rcases gs' with - | ⟨g2, gs2⟩
    · exfalso
      have hg0 : g = 0 := hlast
      subst hg0
      have hv0 : groupsValue [0] = 0 := rfl
      rw [hv0] at hover
      have hlen : ulebEncode 0 = [0] := by
        rw [ulebEncode]
        norm_num
      rw [hlen] at hover
      simp at hover
    · simp only [List.length_cons]
      omega
  unfold ulebDecode
  rw [hgroups]
  simp only []
  rw [if_pos ⟨h2, hlast⟩]

/-- Witness for C8 at the spec's concrete example: the two-byte sequence
[0x85, 0x00], a non-minimal encoding of the value 5 (minimal is [0x05]),
fails to decode with the non-canonical-encoding error. -/
theorem uleb_nonminimal_rejected_witness :
    ulebDecode [133, 0] = .error .nonCanonicalEncoding :=
  uleb_nonminimal_rejected [133, 0] [5, 0] [] 5 rfl rfl
    (by rw [show ulebEncode 5 = [5] from by rw [ulebEncode]; rfl]; decide)
